import Mathlib

/-!
Verification of the two example notebooks of this repository:
`examples/notebooks/Retiarii_example_one-shot_NAS.ipynb` and
`examples/notebooks/tabular_data_classification_in_AML.ipynb`.

The notebooks define neural-network model spaces with inline mutation
primitives (layer choice, input choice, value choice) and drive a one-shot
trainer and a multi-trial experiment.  The network definitions are embedded
symbolically: a tensor expression records which layer (with which
parameters) is applied to which intermediate value, so that two forward
functions are extensionally equal exactly when they apply the same layers
in the same order to the same operands.  A separate shape semantics tracks
tensor shapes through each layer, following the standard convolution,
pooling and linear-layer shape rules.  Operations of the NAS framework
itself (the trainer's export, value-choice selection, the experiment
lifecycle) are not part of the supplied source; those are modelled from the
spec, as marked in the corresponding doc comments.
-/

/-- Parameters of a `nn.Conv2d(inCh, outCh, kernel, padding)` layer, as
written in the notebook (stride 1 throughout). -/
structure Conv2dP where
  inCh : Nat
  outCh : Nat
  kernel : Nat
  padding : Nat
deriving DecidableEq, Repr

/-- Symbolic tensor expressions: each constructor records one layer
application from the one-shot notebook's `Net.forward`. -/
inductive TExpr where
  | input : TExpr
  | conv : Conv2dP → TExpr → TExpr
  | maxPool : Nat → Nat → TExpr → TExpr
  | relu : TExpr → TExpr
  | add : TExpr → TExpr → TExpr
  | batchNorm : Nat → TExpr → TExpr
  | adaptiveAvgPool : Nat → TExpr → TExpr
  | view : TExpr → TExpr
  | linear : Nat → Nat → TExpr → TExpr
deriving DecidableEq, Repr

/-- Forward pass of the base model of Step 1.1 of the one-shot notebook:
`conv1 = Conv2d(3,6,3,padding=1)`, `pool = MaxPool2d(2,2)`,
`conv2 = Conv2d(6,16,3,padding=1)`, `conv3 = Conv2d(16,16,1)`,
`bn = BatchNorm2d(16)`, `gap = AdaptiveAvgPool2d(4)`,
`fc1 = Linear(256,120)`, `fc2 = Linear(120,84)`, `fc3 = Linear(84,10)`;
the forward computes `x1 += x0` unconditionally. -/
def baseForward : TExpr :=
  let x := TExpr.maxPool 2 2 (TExpr.relu (TExpr.conv ⟨3, 6, 3, 1⟩ TExpr.input))
  let x0 := TExpr.relu (TExpr.conv ⟨6, 16, 3, 1⟩ x)
  let x1 := TExpr.relu (TExpr.conv ⟨16, 16, 1, 0⟩ x0)
  let x1s := TExpr.add x1 x0
  let xp := TExpr.maxPool 2 2 (TExpr.batchNorm 16 x1s)
  let xf := TExpr.view (TExpr.adaptiveAvgPool 4 xp)
  TExpr.linear 84 10 (TExpr.relu (TExpr.linear 120 84
    (TExpr.relu (TExpr.linear 256 120 xf))))

/-- Candidates of the first layer choice of Step 1.2:
`nn.LayerChoice([nn.Conv2d(3, 6, 3, padding=1), nn.Conv2d(3, 6, 5, padding=2)])`. -/
def conv1Candidates : List Conv2dP := [⟨3, 6, 3, 1⟩, ⟨3, 6, 5, 2⟩]

/-- Candidates of the second layer choice of Step 1.2:
`nn.LayerChoice([nn.Conv2d(6, 16, 3, padding=1), nn.Conv2d(6, 16, 5, padding=2)])`. -/
def conv2Candidates : List Conv2dP := [⟨6, 16, 3, 1⟩, ⟨6, 16, 5, 2⟩]

/-- Selecting one candidate out of a two-element candidate list. -/
def pickCand {α : Type} (cands : List α) (i : Fin 2) (h : cands.length = 2) : α :=
  cands.get (Fin.cast h.symm i)

/-- Forward pass of the mutated model space of Step 1.2 of the one-shot
notebook, parametrised by the choice made for each of the three declared
mutations: `conv1` (layer choice, two candidates), `conv2` (layer choice,
two candidates) and `skipconnect = nn.InputChoice(n_candidates=2)` applied
to `[x1, x1 + x0]`. -/
def mutatedForward (c1 c2 skip : Fin 2) : TExpr :=
  let x := TExpr.maxPool 2 2 (TExpr.relu (TExpr.conv (pickCand conv1Candidates c1 rfl) TExpr.input))
  let x0 := TExpr.relu (TExpr.conv (pickCand conv2Candidates c2 rfl) x)
  let x1 := TExpr.relu (TExpr.conv ⟨16, 16, 1, 0⟩ x0)
  let x1s := pickCand [x1, TExpr.add x1 x0] skip rfl
  let xp := TExpr.maxPool 2 2 (TExpr.batchNorm 16 x1s)
  let xf := TExpr.view (TExpr.adaptiveAvgPool 4 xp)
  TExpr.linear 84 10 (TExpr.relu (TExpr.linear 120 84
    (TExpr.relu (TExpr.linear 256 120 xf))))

/-- Tensor shapes: a 4-D batched image tensor `(bs, c, h, w)` or a 2-D
batched feature tensor `(bs, f)`. -/
inductive ShapeT where
  | s4 : Nat → Nat → Nat → Nat → ShapeT
  | s2 : Nat → Nat → ShapeT
deriving DecidableEq, Repr

/-- Shape rule of `Conv2d` with stride 1: the channel count must match and
the padded spatial extent must cover the kernel; the output spatial size is
`h + 2*padding - kernel + 1`. -/
def convShape (p : Conv2dP) : ShapeT → Option ShapeT
  | ShapeT.s4 bs c h w =>
    if c = p.inCh ∧ p.kernel ≤ h + 2 * p.padding ∧ p.kernel ≤ w + 2 * p.padding then
      some (ShapeT.s4 bs p.outCh (h + 2 * p.padding - p.kernel + 1)
        (w + 2 * p.padding - p.kernel + 1))
    else none
  | _ => none

/-- Shape rule of `MaxPool2d(k, st)`: output spatial size `(h - k)/st + 1`. -/
def maxPoolShape (k st : Nat) : ShapeT → Option ShapeT
  | ShapeT.s4 bs c h w =>
    if 0 < st ∧ k ≤ h ∧ k ≤ w then
      some (ShapeT.s4 bs c ((h - k) / st + 1) ((w - k) / st + 1))
    else none
  | _ => none

/-- Shape rule of elementwise addition: both operands must have the same
shape. -/
def addShape (sa sb : ShapeT) : Option ShapeT :=
  if sa = sb then some sa else none

/-- Shape rule of `BatchNorm2d(f)`: the channel count must equal `f`. -/
def batchNormShape (f : Nat) : ShapeT → Option ShapeT
  | ShapeT.s4 bs c h w => if c = f then some (ShapeT.s4 bs c h w) else none
  | _ => none

/-- Shape rule of `AdaptiveAvgPool2d(o)`: output spatial size is `o × o`. -/
def adaptiveAvgPoolShape (o : Nat) : ShapeT → Option ShapeT
  | ShapeT.s4 bs c _ _ => some (ShapeT.s4 bs c o o)
  | _ => none

/-- Shape rule of `.view(bs, -1)`: flatten channels and spatial dims. -/
def viewShape : ShapeT → Option ShapeT
  | ShapeT.s4 bs c h w => some (ShapeT.s2 bs (c * h * w))
  | _ => none

/-- Shape rule of `Linear(inF, outF)`: the feature count must equal `inF`. -/
def linearShape (inF outF : Nat) : ShapeT → Option ShapeT
  | ShapeT.s2 bs f => if f = inF then some (ShapeT.s2 bs outF) else none
  | _ => none

/-- Shape of a symbolic tensor expression, given the shape of `input`;
`none` when some layer's shape constraint is violated. -/
def shapeOf : TExpr → ShapeT → Option ShapeT
  | TExpr.input, s => some s
  | TExpr.conv p x, s => (shapeOf x s).bind (convShape p)
  | TExpr.maxPool k st x, s => (shapeOf x s).bind (maxPoolShape k st)
  | TExpr.relu x, s => shapeOf x s
  | TExpr.add a b, s =>
    (shapeOf a s).bind fun sa => (shapeOf b s).bind fun sb => addShape sa sb
  | TExpr.batchNorm f x, s => (shapeOf x s).bind (batchNormShape f)
  | TExpr.adaptiveAvgPool o x, s => (shapeOf x s).bind (adaptiveAvgPoolShape o)
  | TExpr.view x, s => (shapeOf x s).bind viewShape
  | TExpr.linear inF outF x, s => (shapeOf x s).bind (linearShape inF outF)

/-- A mutation declared by the one-shot notebook's mutated Net: a layer
choice with its candidate operations, or an input choice with its number of
candidate inputs. -/
inductive MutationDecl where
  | layerChoiceDecl : List Conv2dP → MutationDecl
  | inputChoiceDecl : Nat → MutationDecl
deriving DecidableEq

/-- The three mutations declared in Step 1.2 of the one-shot notebook, with
the mutation identifiers under which the transcript's export reports
them. -/
def oneShotMutations : List (String × MutationDecl) :=
  [("_mutation_1", MutationDecl.layerChoiceDecl conv1Candidates),
   ("_mutation_2", MutationDecl.layerChoiceDecl conv2Candidates),
   ("_mutation_3", MutationDecl.inputChoiceDecl 2)]

/-- A value exported for one mutation: a single chosen index (layer choice)
or a list of chosen indices (input choice). -/
inductive ChoiceVal where
  | idx : Nat → ChoiceVal
  | idxList : List Nat → ChoiceVal
deriving DecidableEq

/-- Modelled from the spec: the one-shot trainer's export operation (the
`DartsTrainer.export` implementation is not part of the supplied source) —
it returns the selected architecture as a mapping from mutation identifier
to chosen index/indices, with the value taken from the notebook transcript
`Final architecture: ('_mutation_1': 1, '_mutation_2': 1, '_mutation_3': [1])`. -/
def trainerExport : List (String × ChoiceVal) :=
  [("_mutation_1", ChoiceVal.idx 1),
   ("_mutation_2", ChoiceVal.idx 1),
   ("_mutation_3", ChoiceVal.idxList [1])]

/-- One exported entry matches one declared mutation when it carries the
same identifier, with a single index for a layer choice and a list of
indices for an input choice. -/
def entryMatches : (String × MutationDecl) → (String × ChoiceVal) → Bool
  | (k1, MutationDecl.layerChoiceDecl _), (k2, ChoiceVal.idx _) => k1 == k2
  | (k1, MutationDecl.inputChoiceDecl _), (k2, ChoiceVal.idxList _) => k1 == k2
  | _, _ => false

/-- The export matches the declared mutation list pointwise. -/
def exportMatchesDecls : List (String × MutationDecl) → List (String × ChoiceVal) → Bool
  | [], [] => true
  | d :: ds, e :: es => entryMatches d e && exportMatchesDecls ds es
  | _, _ => false

/-- Modelled from the spec: the layer-choice part of the exported
architecture, pairing each layer choice's candidate list with the index the
trainer exported for it (index `1` for both layer choices in the
transcript). -/
def layerChoiceExports : List (List Conv2dP × Nat) :=
  [(conv1Candidates, 1), (conv2Candidates, 1)]

/-- The keyword arguments with which the one-shot notebook constructs the
`DartsTrainer`, in source order: `model`, `loss`, `metrics`, `optimizer`,
`num_epochs`, `dataset`, `batch_size`, `log_frequency`. -/
def dartsTrainerArgs : List String :=
  ["model", "loss", "metrics", "optimizer", "num_epochs", "dataset",
   "batch_size", "log_frequency"]

/-- The construction arguments named by the spec: a model, a loss function,
a metric function, an optimizer, a dataset, a batch size, and an epoch
count. -/
def claimedTrainerArgs : List String :=
  ["model", "loss", "metrics", "optimizer", "dataset", "batch_size",
   "num_epochs"]

/-- The operations the one-shot notebook invokes on the trainer:
`trainer.fit()` and `trainer.export()`. -/
def dartsTrainerOps : List String := ["fit", "export"]

/-- Symbolic feature-tensor expressions for the tabular notebook's Net:
each constructor records one layer application of `Net.forward`. -/
inductive FExpr where
  | input : FExpr
  | linear : Nat → Nat → FExpr → FExpr
  | batchNorm1d : Nat → FExpr → FExpr
  | dropout : ℚ → FExpr → FExpr
  | relu : FExpr → FExpr
  | sigmoid : FExpr → FExpr
deriving DecidableEq

/-- Forward pass of the tabular notebook's base model (Step 2.1):
`fc1 = Linear(input_size, 16)`, `bn1 = BatchNorm1d(16)`,
`dropout1 = Dropout(0.0)`, `fc2 = Linear(16, 16)`, `bn2 = BatchNorm1d(16)`,
`dropout2 = Dropout(0.0)`, `fc3 = Linear(16, 2)`; the forward is
`sigmoid(fc3(dropout2(relu(bn2(fc2(dropout1(relu(bn1(fc1(x))))))))))`. -/
def tabularBaseForward (inputSize : Nat) : FExpr :=
  let x1 := FExpr.dropout 0 (FExpr.relu (FExpr.batchNorm1d 16
    (FExpr.linear inputSize 16 FExpr.input)))
  let x2 := FExpr.dropout 0 (FExpr.relu (FExpr.batchNorm1d 16
    (FExpr.linear 16 16 x1)))
  FExpr.sigmoid (FExpr.linear 16 2 x2)

/-- Candidates of the hidden-dimension value choices of Step 2.2:
`nn.ValueChoice([16, 32, 64, 128, 256, 512, 1024])`. -/
def hiddenDimCandidates : List Nat := [16, 32, 64, 128, 256, 512, 1024]

/-- Candidates of the dropout-rate value choices of Step 2.2:
`nn.ValueChoice([0.0, 0.25, 0.5])` — the literals `0.25` and `0.5` are the
exact rationals `1/4` and `1/2`. -/
def dropoutCandidates : List ℚ := [0, 1/4, 1/2]

/-- Forward pass of the tabular notebook's mutated model space (Step 2.2),
parametrised by the values chosen for the four value choices (two hidden
dimensions, two dropout rates). -/
def tabularMutatedForward (inputSize h1 h2 : Nat) (d1 d2 : ℚ) : FExpr :=
  let x1 := FExpr.dropout d1 (FExpr.relu (FExpr.batchNorm1d h1
    (FExpr.linear inputSize h1 FExpr.input)))
  let x2 := FExpr.dropout d2 (FExpr.relu (FExpr.batchNorm1d h2
    (FExpr.linear h1 h2 x1)))
  FExpr.sigmoid (FExpr.linear h2 2 x2)

/-- Modelled from the spec: a value-choice primitive selects a scalar
hyperparameter out of its enumerated candidate list by index (the
`ValueChoice` implementation is not part of the supplied source). -/
def valueChoiceSelect {α : Type} (cands : List α) (i : Fin cands.length) : α :=
  cands.get i

/-- Layer parameters of the concrete model class printed by
`exp.export_top_models()` in the tabular notebook's transcript. -/
structure ExportedTabularModel where
  fc1In : Nat
  fc1Out : Nat
  bn1F : Nat
  drop1 : ℚ
  fc2In : Nat
  fc2Out : Nat
  bn2F : Nat
  drop2 : ℚ
  fc3In : Nat
  fc3Out : Nat
deriving DecidableEq

/-- The transcript's exported `_model`: `Linear(9, 512)`,
`BatchNorm1d(512)`, `Dropout(p=0.0)`, `Linear(512, 128)`,
`BatchNorm1d(128)`, `Dropout(p=0.25)`, `Linear(128, 2)`. -/
def exportedTopModel : ExportedTabularModel :=
  ⟨9, 512, 512, 0, 512, 128, 128, 1/4, 128, 2⟩

/-- The member of the tabular model space obtained by fixing the two hidden
dimensions and the two dropout rates (input size 9 in the notebook). -/
def instantiateTabular (inputSize h1 h2 : Nat) (d1 d2 : ℚ) : ExportedTabularModel :=
  ⟨inputSize, h1, h1, d1, h1, h2, h2, d2, h2, 2⟩

/-- Forward pass of an exported concrete model class, as printed in the
transcript: linear, batch norm, relu, dropout, twice, then linear and
sigmoid. -/
def exportedModelForward (m : ExportedTabularModel) : FExpr :=
  let x1 := FExpr.dropout m.drop1 (FExpr.relu (FExpr.batchNorm1d m.bn1F
    (FExpr.linear m.fc1In m.fc1Out FExpr.input)))
  let x2 := FExpr.dropout m.drop2 (FExpr.relu (FExpr.batchNorm1d m.bn2F
    (FExpr.linear m.fc2In m.fc2Out x1)))
  FExpr.sigmoid (FExpr.linear m.fc3In m.fc3Out x2)

/-- Modelled from the spec: `exp.export_top_models()` (its implementation
is not part of the supplied source) returns the source of the
top-performing models; per the transcript it yields the single concrete
model above. -/
def exportTopModels : List ExportedTabularModel := [exportedTopModel]

/-- The basic options the tabular notebook sets on the experiment
configuration object (the platform is passed to the constructor, the rest
are attribute assignments). -/
def assignedBasicOptions : List String :=
  ["platform", "experiment_name", "trial_concurrency", "max_trial_number",
   "max_experiment_duration", "nni_manager_ip"]

/-- The recognized options named by the spec: execution platform,
concurrency limit, trial budget, duration limit, network address. -/
def claimedRecognizedOptions : List String :=
  ["platform", "trial_concurrency", "max_trial_number",
   "max_experiment_duration", "nni_manager_ip"]

/-- The recognized options amended with the experiment name, which the
notebook also assigns. -/
def amendedRecognizedOptions : List String :=
  "experiment_name" :: claimedRecognizedOptions

/-- Modelled from the spec: the experiment configuration object
(`RetiariiExeConfig` is not part of the supplied source).  The execution
platform is fixed at construction; the other recognized options start
unset and are filled in by attribute assignment. -/
structure RetiariiExeConfig where
  platform : String
  experimentName : Option String
  trialConcurrency : Option Nat
  maxTrialNumber : Option Nat
  maxExperimentDuration : Option String
  nniManagerIp : Option String
deriving DecidableEq

/-- Construction `RetiariiExeConfig('aml')`: only the platform is set. -/
def mkExeConfig (p : String) : RetiariiExeConfig :=
  ⟨p, none, none, none, none, none⟩

/-- Assignment `exp_config.experiment_name = v`. -/
def setExperimentName (c : RetiariiExeConfig) (v : String) : RetiariiExeConfig :=
  { c with experimentName := some v }

/-- Assignment `exp_config.trial_concurrency = v`. -/
def setTrialConcurrency (c : RetiariiExeConfig) (v : Nat) : RetiariiExeConfig :=
  { c with trialConcurrency := some v }

/-- Assignment `exp_config.max_trial_number = v`. -/
def setMaxTrialNumber (c : RetiariiExeConfig) (v : Nat) : RetiariiExeConfig :=
  { c with maxTrialNumber := some v }

/-- Assignment `exp_config.max_experiment_duration = v`. -/
def setMaxExperimentDuration (c : RetiariiExeConfig) (v : String) : RetiariiExeConfig :=
  { c with maxExperimentDuration := some v }

/-- Assignment `exp_config.nni_manager_ip = v`. -/
def setNniManagerIp (c : RetiariiExeConfig) (v : String) : RetiariiExeConfig :=
  { c with nniManagerIp := some v }

/-- The configuration built by the tabular notebook's Step 4 cell. -/
def tabularExpConfig : RetiariiExeConfig :=
  setNniManagerIp
    (setMaxExperimentDuration
      (setMaxTrialNumber
        (setTrialConcurrency
          (setExperimentName (mkExeConfig "aml") "titanic_example") 2) 20) "2h") ""

/-- Lifecycle status of an experiment. -/
inductive ExpStatus where
  | created : ExpStatus
  | running : ExpStatus
  | stopped : ExpStatus
deriving DecidableEq

/-- Modelled from the spec: the observable state of a multi-trial
experiment (the `RetiariiExperiment` implementation is not part of the
supplied source): a trial budget, the number of trials completed so far,
and a lifecycle status. -/
structure ExperimentSt where
  maxTrialNumber : Nat
  trialsDone : Nat
  status : ExpStatus
deriving DecidableEq

/-- Modelled from the spec: executing the remaining trial budget; the
experiment is in the running state while trials execute and stops once the
budget is exhausted. -/
def runTrials : Nat → ExperimentSt → ExperimentSt
  | 0, e => { e with status := ExpStatus.stopped }
  | n + 1, e =>
    runTrials n { e with trialsDone := e.trialsDone + 1, status := ExpStatus.running }

/-- Modelled from the spec: `exp.run(exp_config, port)` blocks until the
search completes — it returns only once the whole trial budget has run and
the experiment has stopped. -/
def expRun (e : ExperimentSt) : ExperimentSt :=
  runTrials (e.maxTrialNumber - e.trialsDone) e

/-- Running `n` remaining trials always ends with the experiment stopped,
having completed `n` further trials. -/
theorem runTrials_stopped (n : Nat) (e : ExperimentSt) :
    (runTrials n e).status = ExpStatus.stopped ∧
      (runTrials n e).trialsDone = e.trialsDone + n := by
  induction n generalizing e with
  | zero => exact ⟨rfl, rfl⟩
  | succ k ih =>
    obtain ⟨h1, h2⟩ :=
      ih { e with trialsDone := e.trialsDone + 1, status := ExpStatus.running }
    refine ⟨h1, ?_⟩
    show (runTrials k
      { e with trialsDone := e.trialsDone + 1, status := ExpStatus.running }).trialsDone =
        e.trialsDone + (k + 1)
    rw [h2]
    show e.trialsDone + 1 + k = e.trialsDone + (k + 1)
    omega

/-- C2: fixing both layer choices of the one-shot notebook's mutated model
space to their first candidate (the 3x3-kernel, padding-1 convolutions) and
the skip-connection input choice to its second candidate (`x1 + x0`) yields
a forward function extensionally equal to the base Net's forward of
Step 1.1, which unconditionally adds `x0` into `x1`. -/
theorem mutated_at_first_candidates_skip_eq_base :
    mutatedForward 0 0 1 = baseForward := by
  rfl

/-- C3: for every choice of the three mutations, the one-shot notebook's
mutated Net maps an input batch of shape `(bs, 3, 32, 32)` to an output of
shape `(bs, 10)`: both candidates of each layer choice preserve spatial
dimensions, the two input-choice candidates have identical shape, and
`AdaptiveAvgPool2d(4)` makes the flattened feature length `16*4*4 = 256`,
matching `fc1`'s input size, so `fc3` always produces 10 outputs per
sample. -/
theorem mutated_forward_shape (c1 c2 skip : Fin 2) (bs : Nat) :
    shapeOf (mutatedForward c1 c2 skip) (ShapeT.s4 bs 3 32 32) =
      some (ShapeT.s2 bs 10) := by
  fin_cases c1 <;> fin_cases c2 <;> fin_cases skip <;>
    simp [mutatedForward, pickCand, conv1Candidates, conv2Candidates, shapeOf,
      convShape, maxPoolShape, addShape, batchNormShape, adaptiveAvgPoolShape,
      viewShape, linearShape]

/-- C1: for the one-shot notebook's model space, which declares two layer
choices and one input choice, the trainer's export returns the selected
architecture as a mapping with exactly one entry per declared mutation,
keyed by mutation identifier, where each layer choice maps to a single
chosen index and the input choice maps to a list of chosen indices. -/
theorem trainer_export_one_entry_per_mutation :
    trainerExport.map Prod.fst = oneShotMutations.map Prod.fst ∧
    (trainerExport.map Prod.fst).Nodup ∧
    trainerExport.length = oneShotMutations.length ∧
    exportMatchesDecls oneShotMutations trainerExport = true := by
  decide

/-- C4: every scalar hyperparameter selected by a value-choice primitive is
a member of that choice's enumerated candidate set; in the model exported
from the tabular notebook's model space the hidden dimensions 512 and 128
are members of the candidate set of the hidden-dimension choices, and the
dropout rates 0 and 1/4 are members of the candidate set of the dropout
choices. -/
theorem value_choice_selects_member :
    (∀ (cands : List ℚ) (i : Fin cands.length), valueChoiceSelect cands i ∈ cands) ∧
    (∀ (cands : List Nat) (i : Fin cands.length), valueChoiceSelect cands i ∈ cands) ∧
    exportedTopModel.fc1Out ∈ hiddenDimCandidates ∧
    exportedTopModel.fc2Out ∈ hiddenDimCandidates ∧
    exportedTopModel.drop1 ∈ dropoutCandidates ∧
    exportedTopModel.drop2 ∈ dropoutCandidates := by
  refine ⟨fun cands i => ?_, fun cands i => ?_, by decide, by decide,
      by norm_num [exportedTopModel, dropoutCandidates],
      by norm_num [exportedTopModel, dropoutCandidates]⟩ <;>
    exact List.get_mem cands i.1 i.2

/-- C5: choosing hidden dimensions 16 and 16 and dropout rate 0 for both
dropout choices — all members of the declared candidate sets — produces a
network whose forward computation equals the tabular base Net's forward. -/
theorem tabular_base_in_model_space :
    16 ∈ hiddenDimCandidates ∧ (0 : ℚ) ∈ dropoutCandidates ∧
    ∀ inputSize : Nat,
      tabularMutatedForward inputSize 16 16 0 0 = tabularBaseForward inputSize :=
  ⟨by decide, by decide, fun _ => rfl⟩

/-- C6: each of the one-shot notebook's two layer choices enumerates two
candidate convolutions, and the exported index is a valid position in the
candidate list (hence in the set of positions 0 and 1), so looking up the
chosen candidate never goes out of bounds. -/
theorem layer_choice_export_in_bounds (p : List Conv2dP × Nat)
    (hp : p ∈ layerChoiceExports) : p.1.length = 2 ∧ p.2 < p.1.length := by
  fin_cases hp <;> exact ⟨rfl, by decide⟩

/-- Witness for `layer_choice_export_in_bounds` at the first layer
choice. -/
theorem layer_choice_export_in_bounds_witness :
    (conv1Candidates, 1) ∈ layerChoiceExports ∧
      (conv1Candidates.length = 2 ∧ 1 < conv1Candidates.length) :=
  ⟨by decide, layer_choice_export_in_bounds (conv1Candidates, 1) (by decide)⟩

/-- C7 counterexample: the one-shot notebook constructs the `DartsTrainer`
with an additional `log_frequency` argument, so the construction is not
with exactly the seven arguments the claim lists. -/
theorem darts_trainer_extra_arg :
    "log_frequency" ∈ dartsTrainerArgs ∧ "log_frequency" ∉ claimedTrainerArgs := by
  decide

/-- C7 (amended): the one-shot trainer is constructed with a model, a loss
function, a metric function, an optimizer, a dataset, a batch size, an
epoch count, and additionally a log frequency — nothing else — and exposes
a fit operation and an export operation. -/
theorem darts_trainer_interface :
    (∀ a ∈ claimedTrainerArgs, a ∈ dartsTrainerArgs) ∧
    (∀ a ∈ dartsTrainerArgs, a ∈ claimedTrainerArgs ∨ a = "log_frequency") ∧
    dartsTrainerArgs.Nodup ∧
    "fit" ∈ dartsTrainerOps ∧ "export" ∈ dartsTrainerOps := by
  decide

/-- C8 counterexample: the tabular notebook assigns the basic option
`experiment_name` on the configuration object, and the claim's list of
recognized options (execution platform, concurrency limit, trial budget,
duration limit, network address) does not contain it. -/
theorem exe_config_experiment_name_missing :
    "experiment_name" ∈ assignedBasicOptions ∧
      "experiment_name" ∉ claimedRecognizedOptions := by
  decide

/-- C8 (amended): every basic option assigned to the experiment
configuration object is recognized once the experiment name is added to the
recognized options; the tabular notebook sets platform `aml`, experiment
name `titanic_example`, trial concurrency 2, max trial number 20, max
experiment duration `2h` and the manager address, and each assignment
leaves the other options unchanged. -/
theorem exe_config_assignments :
    (∀ o ∈ assignedBasicOptions, o ∈ amendedRecognizedOptions) ∧
    tabularExpConfig =
      ⟨"aml", some "titanic_example", some 2, some 20, some "2h", some ""⟩ ∧
    (∀ c v, (setExperimentName c v).platform = c.platform ∧
      (setExperimentName c v).trialConcurrency = c.trialConcurrency ∧
      (setExperimentName c v).maxTrialNumber = c.maxTrialNumber ∧
      (setExperimentName c v).maxExperimentDuration = c.maxExperimentDuration ∧
      (setExperimentName c v).nniManagerIp = c.nniManagerIp) ∧
    (∀ c v, (setTrialConcurrency c v).platform = c.platform ∧
      (setTrialConcurrency c v).experimentName = c.experimentName ∧
      (setTrialConcurrency c v).maxTrialNumber = c.maxTrialNumber ∧
      (setTrialConcurrency c v).maxExperimentDuration = c.maxExperimentDuration ∧
      (setTrialConcurrency c v).nniManagerIp = c.nniManagerIp) ∧
    (∀ c v, (setMaxTrialNumber c v).platform = c.platform ∧
      (setMaxTrialNumber c v).experimentName = c.experimentName ∧
      (setMaxTrialNumber c v).trialConcurrency = c.trialConcurrency ∧
      (setMaxTrialNumber c v).maxExperimentDuration = c.maxExperimentDuration ∧
      (setMaxTrialNumber c v).nniManagerIp = c.nniManagerIp) ∧
    (∀ c v, (setMaxExperimentDuration c v).platform = c.platform ∧
      (setMaxExperimentDuration c v).experimentName = c.experimentName ∧
      (setMaxExperimentDuration c v).trialConcurrency = c.trialConcurrency ∧
      (setMaxExperimentDuration c v).maxTrialNumber = c.maxTrialNumber ∧
      (setMaxExperimentDuration c v).nniManagerIp = c.nniManagerIp) ∧
    (∀ c v, (setNniManagerIp c v).platform = c.platform ∧
      (setNniManagerIp c v).experimentName = c.experimentName ∧
      (setNniManagerIp c v).trialConcurrency = c.trialConcurrency ∧
      (setNniManagerIp c v).maxTrialNumber = c.maxTrialNumber ∧
      (setNniManagerIp c v).maxExperimentDuration = c.maxExperimentDuration) :=
  ⟨by decide, rfl,
    fun _ _ => ⟨rfl, rfl, rfl, rfl, rfl⟩,
    fun _ _ => ⟨rfl, rfl, rfl, rfl, rfl⟩,
    fun _ _ => ⟨rfl, rfl, rfl, rfl, rfl⟩,
    fun _ _ => ⟨rfl, rfl, rfl, rfl, rfl⟩,
    fun _ _ => ⟨rfl, rfl, rfl, rfl, rfl⟩⟩

/-- C9: iterating over the result of the experiment's export operation
yields, for each top model, a concrete model class in which every mutation
choice has been fixed to a single value: each exported model is the
instantiation of the tabular model space at candidate hyperparameter
values, and its forward is the fully fixed forward of that
instantiation. -/
theorem export_top_models_concrete :
    exportTopModels.length = 1 ∧
    ∀ m ∈ exportTopModels, ∃ h1 ∈ hiddenDimCandidates, ∃ h2 ∈ hiddenDimCandidates,
      ∃ d1 ∈ dropoutCandidates, ∃ d2 ∈ dropoutCandidates,
        m = instantiateTabular 9 h1 h2 d1 d2 ∧
        exportedModelForward m = tabularMutatedForward 9 h1 h2 d1 d2 := by
  refine ⟨rfl, ?_⟩
  intro m hm
  have h := List.mem_singleton.mp hm
  subst h
  exact ⟨512, by decide, 128, by decide, 0, by norm_num [dropoutCandidates],
    1/4, by norm_num [dropoutCandidates], rfl, rfl⟩

/-- C10: the experiment's run operation blocks until the search completes:
`expRun` returns only a stopped experiment with its whole trial budget
completed, so any operation sequenced after it in the notebook (such as
exporting the top models) observes a completed search. -/
theorem exp_run_blocks_until_stopped (e : ExperimentSt) (h : e.trialsDone = 0) :
    (expRun e).status = ExpStatus.stopped ∧
      (expRun e).trialsDone = e.maxTrialNumber := by
  obtain ⟨h1, h2⟩ := runTrials_stopped (e.maxTrialNumber - e.trialsDone) e
  refine ⟨h1, ?_⟩
  show (runTrials (e.maxTrialNumber - e.trialsDone) e).trialsDone = e.maxTrialNumber
  omega

/-- Witness for `exp_run_blocks_until_stopped` at the notebook's
experiment: trial budget 20, no trials completed yet. -/
theorem exp_run_blocks_until_stopped_witness :
    (⟨20, 0, ExpStatus.created⟩ : ExperimentSt).trialsDone = 0 ∧
      ((expRun ⟨20, 0, ExpStatus.created⟩).status = ExpStatus.stopped ∧
        (expRun ⟨20, 0, ExpStatus.created⟩).trialsDone = 20) :=
  ⟨rfl, exp_run_blocks_until_stopped ⟨20, 0, ExpStatus.created⟩ rfl⟩

/-- Witness for `mutated_forward_shape` at concrete choices and a concrete
batch size. -/
theorem mutated_forward_shape_witness :
    shapeOf (mutatedForward 0 1 1) (ShapeT.s4 4 3 32 32) = some (ShapeT.s2 4 10) :=
  mutated_forward_shape 0 1 1 4
